import Mathlib

/- Shallow embedding of the CMSIS-DAP USB interface layer of the
rp2040_cmsis_dap firmware (src/rp2040_cmsis_dap/src/cmsis_dap.rs).

The descriptor composer is modelled over a mutable byte buffer `Buf`
(a length plus a contents function, mirroring a Rust `&mut [u8]` slice);
the command dispatcher is modelled over `List Nat` byte buffers, with the
non-terminating `while` loop made explicit through a fuel parameter.
Machine integers are `Nat` with the casts written out as `%` where the
source truncates. -/

/- Errors of the usb-device collaborator crate that the firmware observes:
`UsbError::WouldBlock` from non-blocking endpoint reads/writes and
`UsbError::BufferOverflow` from descriptor composition. -/
inductive UsbError where
  | WouldBlock
  | BufferOverflow
  deriving DecidableEq

def USB_IF_CLASS_VENDOR : Nat := 0xff

def USB_IF_SUBCLASS_VENDOR : Nat := 0x00

def USB_IF_PROTOCOL_NONE : Nat := 0x00

def MS_OS_20_SET_HEADER_DESCRIPTOR : Nat := 0x0000

def MS_OS_20_SUBSET_HEADER_CONFIGURATION : Nat := 0x0001

def MS_OS_20_SUBSET_HEADER_FUNCTION : Nat := 0x0002

def MS_OS_20_FEATURE_COMPATIBLE_ID : Nat := 0x0003

def MS_OS_20_FEATURE_REG_PROPERTY : Nat := 0x0004

def MS_VENDOR_CODE : Nat := 0x01

/- `#[repr(u16)] enum RegPropertyType` from the source, with its
`IntoPrimitive` discriminants. -/
inductive RegPropertyType where
  | Reserved
  | String
  | ExpandString
  | Binary
  | DwordLittleEndian
  | DwordBigEndian
  | Link
  | MultiString
  deriving DecidableEq

def RegPropertyType.toU16 : RegPropertyType → Nat
  | .Reserved => 0
  | .String => 1
  | .ExpandString => 2
  | .Binary => 3
  | .DwordLittleEndian => 4
  | .DwordBigEndian => 5
  | .Link => 6
  | .MultiString => 7

/-- Source `const fn u16_lo(v: u16) -> u8 { (v & 0xff) as u8 }`;
masking with 0xff is reduction mod 256. -/
def u16_lo (v : Nat) : Nat := v % 256

/-- Source `const fn u16_hi(v: u16) -> u8 { (v >> 8) as u8 }`;
the shift is division by 256 and the u8 cast is reduction mod 256. -/
def u16_hi (v : Nat) : Nat := v / 256 % 256

/-- Source `const fn u32_lo(v: u32) -> u16 { (v & 0xfffff) as u16 }`.
Note the mask is 0xfffff (20 bits, i.e. mod 2^20 = 1048576), and the u16
cast then truncates mod 2^16 = 65536. -/
def u32_lo (v : Nat) : Nat := v % 1048576 % 65536

/-- Source `const fn u32_hi(v: u32) -> u16 { (v >> 16) as u16 }`. -/
def u32_hi (v : Nat) : Nat := v / 65536 % 65536

/-- `u16::to_le_bytes` of a (already mod-65536-reduced) value. -/
def u16_le_bytes (v : Nat) : List Nat := [v % 256, v / 256 % 256]

/-- `s.as_bytes()` for the ASCII-only string literals used in the firmware. -/
def asciiBytes (s : String) : List Nat :=
  s.toList.map Char.toNat

/-- Source `fn fill_utf16`: expands each source byte `b[i]` to the pair
`b[i], 0` (UTF-16LE for ASCII), writing `buf[i*2] = b[i]; buf[i*2+1] = 0`. -/
def fill_utf16 (b : List Nat) : List Nat :=
  (b.map (fun x => [x, 0])).flatten

/- A Rust `&mut [u8]` slice: a length and the byte at each index.
Indices at or beyond `len` are never written by the embedded code (every
writer checks `len` before storing). -/
structure Buf where
  data : Nat → Nat
  len : Nat

/-- Indexed store `buffer[i] = v`. -/
def setB (b : Buf) (i v : Nat) : Buf :=
  ⟨fun k => if k = i then v else b.data k, b.len⟩

/-- `buffer[i..i+src.len()].copy_from_slice(src)`. -/
def copyB (b : Buf) (i : Nat) (src : List Nat) : Buf :=
  ⟨fun k => if i ≤ k ∧ k < i + src.length then src.getD (k - i) 0 else b.data k, b.len⟩

/-- The sub-slice `&mut buffer[i..]`. -/
def dropB (b : Buf) (i : Nat) : Buf :=
  ⟨fun k => b.data (i + k), b.len - i⟩

/-- Reassembling a parent buffer after a callee mutated the sub-slice
`&mut buffer[i..]`: the first `i` bytes are the parent's, the rest the
callee's. -/
def spliceB (b : Buf) (i : Nat) (tail : Buf) : Buf :=
  ⟨fun k => if k < i then b.data k else tail.data (k - i), b.len⟩

/-- The first `n` bytes of a buffer as a list (what `&buffer[..n]` exposes). -/
def bufTake (b : Buf) (n : Nat) : List Nat :=
  (List.range n).map b.data

/-- The eight header stores `buffer[0] = ...; ...; buffer[7] = ...` of
`write_descriptor_set` (bytes 8 and 9, `wTotalLength`, are backpatched
after the callback runs). -/
def ds_set_header (buffer : Buf) (windows_version : Nat) : Buf :=
  setB (setB (setB (setB (setB (setB (setB (setB buffer
    0 (u16_lo 10)) 1 (u16_hi 10))
    2 (u16_lo MS_OS_20_SET_HEADER_DESCRIPTOR)) 3 (u16_hi MS_OS_20_SET_HEADER_DESCRIPTOR))
    4 (u16_lo (u32_lo windows_version))) 5 (u16_hi (u32_lo windows_version)))
    6 (u16_lo (u32_hi windows_version))) 7 (u16_hi (u32_hi windows_version))

/-- Source `fn write_descriptor_set`: 10-byte MS OS 2.0 descriptor set
header, then the callback on the remaining buffer, then the backpatched
`wTotalLength` (written with a `usize`-to-`u16` cast). -/
def write_descriptor_set (buffer : Buf) (windows_version : Nat)
    (f : Buf → Buf × Except UsbError Nat) : Buf × Except UsbError Nat :=
  let length := 10
  if buffer.len < length then (buffer, .error .BufferOverflow) else
  let b := ds_set_header buffer windows_version
  let res := f (dropB b length)
  let b := spliceB b length res.1
  match res.2 with
  | .error e => (b, .error e)
  | .ok consumed =>
    let total_length := consumed + length
    (setB (setB b 8 (u16_lo (total_length % 65536))) 9 (u16_hi (total_length % 65536)),
      .ok total_length)

/-- The six header stores of `write_configuration_subset` (bytes 6 and 7
are backpatched after the callback runs). Byte 4 is the configuration
index 0, byte 5 reserved. -/
def cfg_subset_header (buffer : Buf) : Buf :=
  setB (setB (setB (setB (setB (setB buffer
    0 (u16_lo 8)) 1 (u16_hi 8))
    2 (u16_lo MS_OS_20_SUBSET_HEADER_CONFIGURATION)) 3 (u16_hi MS_OS_20_SUBSET_HEADER_CONFIGURATION))
    4 0) 5 0

/-- Source `fn write_configuration_subset`: 8-byte configuration subset
header (configuration index 0), callback, backpatched total length. -/
def write_configuration_subset (buffer : Buf)
    (f : Buf → Buf × Except UsbError Nat) : Buf × Except UsbError Nat :=
  let length := 8
  if buffer.len < length then (buffer, .error .BufferOverflow) else
  let b := cfg_subset_header buffer
  let res := f (dropB b length)
  let b := spliceB b length res.1
  match res.2 with
  | .error e => (b, .error e)
  | .ok consumed =>
    let total_length := consumed + length
    (setB (setB b 6 (u16_lo (total_length % 65536))) 7 (u16_hi (total_length % 65536)),
      .ok total_length)

/-- The six header stores of `write_function_subset` (bytes 6 and 7 are
backpatched after the callback runs). Byte 4 is the first interface
number, byte 5 reserved. -/
def fn_subset_header (buffer : Buf) (first_interface_number : Nat) : Buf :=
  setB (setB (setB (setB (setB (setB buffer
    0 (u16_lo 8)) 1 (u16_hi 8))
    2 (u16_lo MS_OS_20_SUBSET_HEADER_FUNCTION)) 3 (u16_hi MS_OS_20_SUBSET_HEADER_FUNCTION))
    4 first_interface_number) 5 0

/-- Source `fn write_function_subset`: 8-byte function subset header
carrying the first interface number, callback, backpatched total length. -/
def write_function_subset (buffer : Buf) (first_interface_number : Nat)
    (f : Buf → Buf × Except UsbError Nat) : Buf × Except UsbError Nat :=
  let length := 8
  if buffer.len < length then (buffer, .error .BufferOverflow) else
  let b := fn_subset_header buffer first_interface_number
  let res := f (dropB b length)
  let b := spliceB b length res.1
  match res.2 with
  | .error e => (b, .error e)
  | .ok consumed =>
    let total_length := consumed + length
    (setB (setB b 6 (u16_lo (total_length % 65536))) 7 (u16_hi (total_length % 65536)),
      .ok total_length)

/-- Source `fn write_compatible_id`: fixed 20-byte compatible-ID feature
descriptor. -/
def write_compatible_id (buffer : Buf) (compatible_id sub_compatible_id : List Nat) :
    Buf × Except UsbError Nat :=
  let length := 20
  if buffer.len < length then (buffer, .error .BufferOverflow) else
  let b := setB buffer 0 (u16_lo length)
  let b := setB b 1 (u16_hi length)
  let b := setB b 2 (u16_lo MS_OS_20_FEATURE_COMPATIBLE_ID)
  let b := setB b 3 (u16_hi MS_OS_20_FEATURE_COMPATIBLE_ID)
  let b := copyB b 4 compatible_id
  let b := copyB b 12 sub_compatible_id
  (b, .ok length)

/-- Source `fn write_registry_property`: variable-length registry property
feature descriptor (`name_len + data_len + 10` bytes). -/
def write_registry_property (buffer : Buf) (property_name : List Nat)
    (property_type : RegPropertyType) (property_data : List Nat) :
    Buf × Except UsbError Nat :=
  let name_len := property_name.length
  let data_len := property_data.length
  let length := name_len + data_len + 10
  if buffer.len < length then (buffer, .error .BufferOverflow) else
  let pt := property_type.toU16
  let b := setB buffer 0 (u16_lo (length % 65536))
  let b := setB b 1 (u16_hi (length % 65536))
  let b := setB b 2 (u16_lo MS_OS_20_FEATURE_REG_PROPERTY)
  let b := setB b 3 (u16_hi MS_OS_20_FEATURE_REG_PROPERTY)
  let b := copyB b 4 (u16_le_bytes pt)
  let b := copyB b 6 (u16_le_bytes (name_len % 65536))
  let b := copyB b 8 property_name
  let b := copyB b (8 + name_len) (u16_le_bytes (data_len % 65536))
  let b := copyB b (8 + name_len + 2) property_data
  (b, .ok length)

/-- `b"WINUSB\0\0"`, the compatible ID passed in `control_in`. -/
def winusb_compatible_id : List Nat := asciiBytes "WINUSB" ++ [0, 0]

/-- The zeroed 8-byte sub-compatible ID passed in `control_in`. -/
def winusb_sub_compatible_id : List Nat := List.replicate 8 0

/-- `property_name` built in `control_in`: UTF-16LE expansion of the
NUL-terminated `b"DeviceInterfaceGUID\0"`. -/
def property_name_bytes : List Nat :=
  fill_utf16 (asciiBytes "DeviceInterfaceGUID" ++ [0])

/-- `property_data` built in `control_in`: UTF-16LE expansion of the
NUL-terminated device interface GUID string literal. -/
def property_data_bytes : List Nat :=
  fill_utf16 (asciiBytes "\x7bA5DCBF10-6530-11D2-901F-00C04FB951ED\x7d" ++ [0])

/-- The innermost closure passed to `write_function_subset` in
`control_in`: the WINUSB compatible-ID feature followed by the
DeviceInterfaceGUID registry-property feature, with `offset` threaded as
in the source (`offset += write_...(&mut buffer[offset..])?`). -/
def write_winusb_features (buffer : Buf) : Buf × Except UsbError Nat :=
  let res1 := write_compatible_id buffer winusb_compatible_id winusb_sub_compatible_id
  match res1.2 with
  | .error e => (res1.1, .error e)
  | .ok n1 =>
    let res2 := write_registry_property (dropB res1.1 n1) property_name_bytes
      RegPropertyType.String property_data_bytes
    match res2.2 with
    | .error e => (spliceB res1.1 n1 res2.1, .error e)
    | .ok n2 => (spliceB res1.1 n1 res2.1, .ok (n1 + n2))

/-- The closure passed to `write_configuration_subset` in `control_in`:
`|buffer| write_function_subset(buffer, interface_number, |buffer| ...)`. -/
def function_subset_fn (interface_number : Nat) (buffer : Buf) :
    Buf × Except UsbError Nat :=
  write_function_subset buffer interface_number write_winusb_features

/-- The closure passed to `write_descriptor_set` in `control_in`:
`|buffer| write_configuration_subset(buffer, |buffer| ...)`. -/
def configuration_subset_fn (interface_number : Nat) (buffer : Buf) :
    Buf × Except UsbError Nat :=
  write_configuration_subset buffer (function_subset_fn interface_number)

/-- The full MS OS 2.0 descriptor set composition performed inside
`control_in`'s `xfer.accept` closure: descriptor set ⊃ configuration
subset ⊃ function subset ⊃ features. -/
def compose_descriptor_set (buffer : Buf) (windows_version : Nat)
    (interface_number : Nat) : Buf × Except UsbError Nat :=
  write_descriptor_set buffer windows_version
    (configuration_subset_fn interface_number)

/-- The BOS platform capability payload written by `get_bos_descriptors`
(byte-for-byte from the source array). -/
def bos_platform_capability : List Nat :=
  [0,
   0xdf, 0x60, 0xdd, 0xd8,
   0x89, 0x45, 0xc7, 0x4c,
   0x9c, 0xd2, 0x65, 0x9d,
   0x9e, 0x64, 0x8a, 0x9f,
   0x00, 0x00, 0x03, 0x06,
   174, 0,
   MS_VENDOR_CODE,
   0x00]

/-- The `wLength` advertised by the BOS platform capability descriptor:
the little-endian 16-bit field at payload offsets 21 and 22. -/
def bos_ms_os_20_wLength : Nat :=
  bos_platform_capability.getD 21 0 + 256 * bos_platform_capability.getD 22 0

/- The `RequestType` of a USB control request (usb-device collaborator). -/
inductive RequestType where
  | Standard
  | Class
  | Vendor
  | Reserved
  deriving DecidableEq

/- The fields of a control request that `control_in` inspects. -/
structure ControlRequest where
  request_type : RequestType
  request : Nat
  value : Nat
  index : Nat

/- Outcome of `control_in` on a control-IN transfer.  Per the collaborator
contract, `xfer.accept(f)` hands `f` the transfer buffer and propagates
`f`'s error as its own `Err`; the firmware calls `.unwrap()` on that
result, so an `Err` is a panic (`crashed`). A request the method does not
match leaves the transfer untouched (`ignored`). -/
inductive ControlInRes where
  | ignored
  | accepted (bytes : List Nat)
  | crashed
  deriving DecidableEq

/-- Source `fn control_in`: intercepts exactly
`request_type == Vendor && request == MS_VENDOR_CODE && value == 0 && index == 7`,
composes the descriptor set with Windows version 0x06030000 into the
transfer buffer, and unwraps the result of `accept`. -/
def control_in (interface_number : Nat) (req : ControlRequest) (buffer : Buf) :
    ControlInRes :=
  if req.request_type = RequestType.Vendor ∧ req.request = MS_VENDOR_CODE
      ∧ req.value = 0 ∧ req.index = 7 then
    match (compose_descriptor_set buffer 0x06030000 interface_number).2 with
    | .ok n => .accepted (bufTake (compose_descriptor_set buffer 0x06030000 interface_number).1 n)
    | .error _ => .crashed
  else .ignored

/- ------------------------------------------------------------------ -/
/- Command dispatcher and response state machine (`CmsisDapInterface`). -/

/- The dispatcher state: the 64-byte response buffer and the optional
pending-response length (`None` = Idle, `Some n` = ResponsePending n).
The endpoint handles are modelled as inputs of `poll`. -/
structure CmsisDapInterface where
  response_buffer : List Nat
  pending_response_bytes : Option Nat
  deriving DecidableEq

/-- `CmsisDapInterface::new`: zeroed response buffer, no pending response. -/
def CmsisDapInterface.new : CmsisDapInterface :=
  ⟨List.replicate 64 0, none⟩

/-- The canned `DAP_Info` payload selected by the one-byte sub-ID
(`match request[1]` in `poll`); unimplemented sub-IDs yield `&[]`. -/
def dapInfoPayload (id : Nat) : List Nat :=
  match id with
  | 0x01 => asciiBytes "vendor"
  | 0x02 => asciiBytes "product"
  | 0x03 => asciiBytes "serial"
  | 0x04 => asciiBytes "2.0.0"
  | 0x09 => asciiBytes "1.0.0"
  | 0xf0 => [0x01, 0x00]
  | 0xfe => [0x01]
  | 0xff => [64, 0]
  | _ => []

/-- Store `bs` at positions `i, i+1, ...` of `buf` (all stores are made
only after the in-bounds check in `pollLoop`). -/
def writeAt (buf : List Nat) (i : Nat) (bs : List Nat) : List Nat :=
  buf.take i ++ bs ++ buf.drop (i + bs.length)

/- Outcome of the `while request.len() > 0` frame-decoding loop in `poll`:
`done` = loop exited (request exhausted or unrecognized opcode `break`),
`oob` = a response-buffer store was out of bounds (Rust slice-index
panic), `spin` = the given fuel was exhausted without the loop exiting. -/
inductive LoopRes where
  | done (buf : List Nat) (response_length : Nat)
  | oob
  | spin
  deriving DecidableEq

/-- The frame-decoding loop of `poll`.  `buf` is the full response buffer;
`sliceStart` is how far the local `response` slice has been advanced
(`response = &mut response[response_length_inc..]`), `response_length` the
accumulated response length.  The source indexes the advanced slice with
the accumulated length (`response[response_length + 0] = 0; ...`), so the
absolute store position is `sliceStart + response_length`; the stores are
in bounds iff `response_length + 2 + payload.len ≤` the slice length
`buf.length - sliceStart`, and otherwise Rust panics. A recognized
`DAP_Info` frame needs two bytes; a lone trailing `0x00` byte leaves
`request` unchanged and the loop repeats with identical state. -/
def pollLoop (fuel : Nat) (request buf : List Nat) (sliceStart response_length : Nat) :
    LoopRes :=
  match fuel with
  | 0 => .spin
  | fuel + 1 =>
    match request with
    | [] => .done buf response_length
    | op :: rest =>
      if op = 0 then
        match rest with
        | id :: rest2 =>
          let response_bytes := dapInfoPayload id
          if response_length + 2 + response_bytes.length ≤ buf.length - sliceStart then
            let buf2 := writeAt buf (sliceStart + response_length)
              (0 :: response_bytes.length :: response_bytes)
            let inc := 2 + response_bytes.length
            pollLoop fuel rest2 buf2 (sliceStart + inc) (response_length + inc)
          else .oob
        | [] => pollLoop fuel (op :: rest) buf sliceStart response_length
      else .done buf response_length

/- Outcome of one `poll` call: `ret dev outQueue sends isOk` is a normal
return carrying the new dispatcher state, the packets still queued on the
OUT endpoint, the byte strings successfully handed to the IN endpoint
during the call, and whether the function returned `Ok(())` (an early
`?`-propagated `WouldBlock` returns `Err`); `crash` is a Rust panic and
`spin` a non-terminating frame loop. -/
inductive PollRes where
  | ret (dev : CmsisDapInterface) (outQueue sends : List (List Nat)) (isOk : Bool)
  | crash
  | spin
  deriving DecidableEq

def PollRes.sendsOf : PollRes → List (List Nat)
  | .ret _ _ sends _ => sends
  | _ => []

def PollRes.isOkOf : PollRes → Bool
  | .ret _ _ _ isOk => isOk
  | _ => false

def PollRes.devOf : PollRes → Option CmsisDapInterface
  | .ret dev _ _ _ => some dev
  | _ => none

/-- The part of `poll` after the pending-response flush: read a packet
from the OUT endpoint (would-block if none, propagated by `?`), run the
frame loop, attempt to transmit, and on a failed transmit record the
pending length. -/
def pollAfterFlush (fuel : Nat) (dev : CmsisDapInterface) (sends0 : List (List Nat))
    (outQueue : List (List Nat)) (inBusy2 : Bool) : PollRes :=
  match outQueue with
  | [] => .ret dev [] sends0 false
  | pkt :: rest =>
    match pollLoop fuel pkt dev.response_buffer 0 0 with
    | .spin => .spin
    | .oob => .crash
    | .done buf response_length =>
      if inBusy2 then .ret ⟨buf, some response_length⟩ rest sends0 true
      else .ret ⟨buf, none⟩ rest (sends0 ++ [buf.take response_length]) true

/-- Source `CmsisDapInterface::poll`.  `inBusy1`/`inBusy2` simulate the
IN endpoint would-blocking at the pending-flush write and at the final
transmit; `outQueue` is the stream of packets available on the OUT
endpoint. `fuel` bounds the frame loop (the source loop is unbounded). -/
def poll (fuel : Nat) (dev : CmsisDapInterface) (inBusy1 : Bool)
    (outQueue : List (List Nat)) (inBusy2 : Bool) : PollRes :=
  match dev.pending_response_bytes with
  | some n =>
    if inBusy1 then .ret dev outQueue [] false
    else pollAfterFlush fuel { dev with pending_response_bytes := none }
      [dev.response_buffer.take n] outQueue inBusy2
  | none => pollAfterFlush fuel dev [] outQueue inBusy2

/-- `k` successive `poll` calls with the IN endpoint perpetually busy,
threading the dispatcher state and OUT queue and accumulating everything
handed to the IN endpoint. -/
def pollBusyIter (fuel : Nat) :
    Nat → CmsisDapInterface → List (List Nat) → List (List Nat) →
    CmsisDapInterface × List (List Nat) × List (List Nat)
  | 0, dev, q, acc => (dev, q, acc)
  | k + 1, dev, q, acc =>
    match poll fuel dev true q true with
    | .ret dev2 q2 s2 _ => pollBusyIter fuel k dev2 q2 (acc ++ s2)
    | _ => (dev, q, acc)

/- ------------------------------------------------------------------ -/
/- Helper lemmas about the buffer primitives. -/

theorem setB_len (b : Buf) (i v : Nat) : (setB b i v).len = b.len := rfl

theorem dropB_len (b : Buf) (i : Nat) : (dropB b i).len = b.len - i := rfl

theorem spliceB_len (b : Buf) (i : Nat) (t : Buf) : (spliceB b i t).len = b.len := rfl

theorem setB_data_eq (b : Buf) (i v : Nat) : (setB b i v).data i = v := if_pos rfl

theorem setB_data_ne (b : Buf) (i v k : Nat) (h : k ≠ i) :
    (setB b i v).data k = b.data k := if_neg h

theorem copyB_data_ge (b : Buf) (i : Nat) (src : List Nat) (k : Nat)
    (h : i + src.length ≤ k) : (copyB b i src).data k = b.data k :=
  if_neg (by omega)

theorem copyB_data_lt (b : Buf) (i : Nat) (src : List Nat) (k : Nat)
    (h : k < i) : (copyB b i src).data k = b.data k :=
  if_neg (by omega)

theorem dropB_data (b : Buf) (i k : Nat) : (dropB b i).data k = b.data (i + k) := rfl

theorem spliceB_data_ge (b : Buf) (i : Nat) (t : Buf) (k : Nat) (h : i ≤ k) :
    (spliceB b i t).data k = t.data (k - i) := if_neg (by omega)

theorem spliceB_data_lt (b : Buf) (i : Nat) (t : Buf) (k : Nat) (h : k < i) :
    (spliceB b i t).data k = b.data k := if_pos h

theorem ds_set_header_len (b : Buf) (v : Nat) : (ds_set_header b v).len = b.len := rfl

theorem cfg_subset_header_len (b : Buf) : (cfg_subset_header b).len = b.len := rfl

theorem fn_subset_header_len (b : Buf) (i : Nat) : (fn_subset_header b i).len = b.len := rfl

theorem ds_set_header_data_ge (b : Buf) (v k : Nat) (h : 8 ≤ k) :
    (ds_set_header b v).data k = b.data k := by
  unfold ds_set_header
  rw [setB_data_ne _ _ _ _ (by omega), setB_data_ne _ _ _ _ (by omega),
    setB_data_ne _ _ _ _ (by omega), setB_data_ne _ _ _ _ (by omega),
    setB_data_ne _ _ _ _ (by omega), setB_data_ne _ _ _ _ (by omega),
    setB_data_ne _ _ _ _ (by omega), setB_data_ne _ _ _ _ (by omega)]

theorem cfg_subset_header_data_ge (b : Buf) (k : Nat) (h : 6 ≤ k) :
    (cfg_subset_header b).data k = b.data k := by
  unfold cfg_subset_header
  rw [setB_data_ne _ _ _ _ (by omega), setB_data_ne _ _ _ _ (by omega),
    setB_data_ne _ _ _ _ (by omega), setB_data_ne _ _ _ _ (by omega),
    setB_data_ne _ _ _ _ (by omega), setB_data_ne _ _ _ _ (by omega)]

theorem fn_subset_header_data_ge (b : Buf) (i k : Nat) (h : 6 ≤ k) :
    (fn_subset_header b i).data k = b.data k := by
  unfold fn_subset_header
  rw [setB_data_ne _ _ _ _ (by omega), setB_data_ne _ _ _ _ (by omega),
    setB_data_ne _ _ _ _ (by omega), setB_data_ne _ _ _ _ (by omega),
    setB_data_ne _ _ _ _ (by omega), setB_data_ne _ _ _ _ (by omega)]

theorem property_name_bytes_length : property_name_bytes.length = 40 := by decide

theorem property_data_bytes_length : property_data_bytes.length = 78 := by decide

theorem winusb_compatible_id_length : winusb_compatible_id.length = 8 := by decide

/- ------------------------------------------------------------------ -/
/- Success-path lemmas for the record writers. -/

theorem wcid_len (b : Buf) (cid scid : List Nat) :
    (write_compatible_id b cid scid).1.len = b.len := by
  simp only [write_compatible_id]
  split
  · rfl
  · rfl

theorem wcid_ok (b : Buf) (cid scid : List Nat) (h : 20 ≤ b.len) :
    (write_compatible_id b cid scid).2 = .ok 20 := by
  simp only [write_compatible_id]
  rw [if_neg (by omega)]

theorem wreg_ok (b : Buf) (nm : List Nat) (tp : RegPropertyType) (dt : List Nat)
    (h : nm.length + dt.length + 10 ≤ b.len) :
    (write_registry_property b nm tp dt).2 = .ok (nm.length + dt.length + 10) := by
  simp only [write_registry_property]
  rw [if_neg (by omega)]

theorem wfeat_ok (b : Buf) (h : 148 ≤ b.len) :
    (write_winusb_features b).2 = .ok 148 := by
  simp only [write_winusb_features]
  have h1 : (write_compatible_id b winusb_compatible_id winusb_sub_compatible_id).2 = .ok 20 :=
    wcid_ok _ _ _ (by omega)
  simp only [h1]
  have h2 : (write_registry_property
      (dropB (write_compatible_id b winusb_compatible_id winusb_sub_compatible_id).1 20)
      property_name_bytes RegPropertyType.String property_data_bytes).2 = .ok 128 := by
    have hl : (dropB (write_compatible_id b winusb_compatible_id winusb_sub_compatible_id).1 20).len
        = b.len - 20 := by
      rw [dropB_len, wcid_len]
    have := wreg_ok
      (dropB (write_compatible_id b winusb_compatible_id winusb_sub_compatible_id).1 20)
      property_name_bytes RegPropertyType.String property_data_bytes
      (by rw [hl, property_name_bytes_length, property_data_bytes_length]; omega)
    rw [property_name_bytes_length, property_data_bytes_length] at this
    simpa using this
  simp only [h2]

theorem wfunc_ok (b : Buf) (i : Nat) (f : Buf → Buf × Except UsbError Nat) (m : Nat)
    (h : 8 ≤ b.len) (hf : ∀ t : Buf, t.len = b.len - 8 → (f t).2 = .ok m) :
    (write_function_subset b i f).2 = .ok (m + 8) := by
  simp only [write_function_subset]
  rw [if_neg (by omega)]
  have h1 : (f (dropB (fn_subset_header b i) 8)).2 = .ok m :=
    hf _ (by rw [dropB_len, fn_subset_header_len])
  simp only [h1]

theorem wconf_ok (b : Buf) (f : Buf → Buf × Except UsbError Nat) (m : Nat)
    (h : 8 ≤ b.len) (hf : ∀ t : Buf, t.len = b.len - 8 → (f t).2 = .ok m) :
    (write_configuration_subset b f).2 = .ok (m + 8) := by
  simp only [write_configuration_subset]
  rw [if_neg (by omega)]
  have h1 : (f (dropB (cfg_subset_header b) 8)).2 = .ok m :=
    hf _ (by rw [dropB_len, cfg_subset_header_len])
  simp only [h1]

theorem wds_ok (b : Buf) (v : Nat) (f : Buf → Buf × Except UsbError Nat) (m : Nat)
    (h : 10 ≤ b.len) (hf : ∀ t : Buf, t.len = b.len - 10 → (f t).2 = .ok m) :
    (write_descriptor_set b v f).2 = .ok (m + 10) := by
  simp only [write_descriptor_set]
  rw [if_neg (by omega)]
  have h1 : (f (dropB (ds_set_header b v) 10)).2 = .ok m :=
    hf _ (by rw [dropB_len, ds_set_header_len])
  simp only [h1]

/- ------------------------------------------------------------------ -/
/- Failure-path lemmas: a writer whose length check fails returns its
buffer untouched, and a child's overflow error propagates through a
parent while the parent only writes its header bytes, all below the
child's region. -/

theorem wds_fail_small (b : Buf) (v : Nat) (f : Buf → Buf × Except UsbError Nat)
    (h : b.len < 10) : write_descriptor_set b v f = (b, .error .BufferOverflow) := by
  simp only [write_descriptor_set]
  rw [if_pos h]

theorem wconf_fail_small (b : Buf) (f : Buf → Buf × Except UsbError Nat)
    (h : b.len < 8) : write_configuration_subset b f = (b, .error .BufferOverflow) := by
  simp only [write_configuration_subset]
  rw [if_pos h]

theorem wfunc_fail_small (b : Buf) (i : Nat) (f : Buf → Buf × Except UsbError Nat)
    (h : b.len < 8) : write_function_subset b i f = (b, .error .BufferOverflow) := by
  simp only [write_function_subset]
  rw [if_pos h]

theorem wcid_fail_small (b : Buf) (cid scid : List Nat) (h : b.len < 20) :
    write_compatible_id b cid scid = (b, .error .BufferOverflow) := by
  simp only [write_compatible_id]
  rw [if_pos h]

theorem wreg_fail_small (b : Buf) (nm : List Nat) (tp : RegPropertyType) (dt : List Nat)
    (h : b.len < nm.length + dt.length + 10) :
    write_registry_property b nm tp dt = (b, .error .BufferOverflow) := by
  simp only [write_registry_property]
  rw [if_pos h]

theorem wds_fail (b : Buf) (v : Nat) (f : Buf → Buf × Except UsbError Nat)
    (e : UsbError) (c : Nat) (hlen : 10 ≤ b.len)
    (hf : ∀ t : Buf, t.len = b.len - 10 →
      (f t).2 = .error e ∧ ∀ j, c ≤ j → ((f t).1).data j = t.data j) :
    (write_descriptor_set b v f).2 = .error e
    ∧ ∀ k, 10 + c ≤ k → ((write_descriptor_set b v f).1).data k = b.data k := by
  simp only [write_descriptor_set]
  rw [if_neg (by omega)]
  obtain ⟨h2, h1⟩ := hf (dropB (ds_set_header b v) 10)
    (by rw [dropB_len, ds_set_header_len])
  simp only [h2]
  refine ⟨trivial, ?_⟩
  intro k hk
  rw [spliceB_data_ge _ _ _ _ (by omega), h1 _ (by omega), dropB_data,
    show 10 + (k - 10) = k by omega]
  exact ds_set_header_data_ge _ _ _ (by omega)

theorem wconf_fail (b : Buf) (f : Buf → Buf × Except UsbError Nat)
    (e : UsbError) (c : Nat) (hlen : 8 ≤ b.len)
    (hf : ∀ t : Buf, t.len = b.len - 8 →
      (f t).2 = .error e ∧ ∀ j, c ≤ j → ((f t).1).data j = t.data j) :
    (write_configuration_subset b f).2 = .error e
    ∧ ∀ k, 8 + c ≤ k → ((write_configuration_subset b f).1).data k = b.data k := by
  simp only [write_configuration_subset]
  rw [if_neg (by omega)]
  obtain ⟨h2, h1⟩ := hf (dropB (cfg_subset_header b) 8)
    (by rw [dropB_len, cfg_subset_header_len])
  simp only [h2]
  refine ⟨trivial, ?_⟩
  intro k hk
  rw [spliceB_data_ge _ _ _ _ (by omega), h1 _ (by omega), dropB_data,
    show 8 + (k - 8) = k by omega]
  exact cfg_subset_header_data_ge _ _ (by omega)

theorem wfunc_fail (b : Buf) (i : Nat) (f : Buf → Buf × Except UsbError Nat)
    (e : UsbError) (c : Nat) (hlen : 8 ≤ b.len)
    (hf : ∀ t : Buf, t.len = b.len - 8 →
      (f t).2 = .error e ∧ ∀ j, c ≤ j → ((f t).1).data j = t.data j) :
    (write_function_subset b i f).2 = .error e
    ∧ ∀ k, 8 + c ≤ k → ((write_function_subset b i f).1).data k = b.data k := by
  simp only [write_function_subset]
  rw [if_neg (by omega)]
  obtain ⟨h2, h1⟩ := hf (dropB (fn_subset_header b i) 8)
    (by rw [dropB_len, fn_subset_header_len])
  simp only [h2]
  refine ⟨trivial, ?_⟩
  intro k hk
  rw [spliceB_data_ge _ _ _ _ (by omega), h1 _ (by omega), dropB_data,
    show 8 + (k - 8) = k by omega]
  exact fn_subset_header_data_ge _ _ _ (by omega)

theorem wcid_data_ge (b : Buf) (j : Nat) (hj : 20 ≤ j) :
    ((write_compatible_id b winusb_compatible_id winusb_sub_compatible_id).1).data j
      = b.data j := by
  simp only [write_compatible_id]
  split
  · rfl
  · rw [copyB_data_ge _ _ _ _ (by simp [winusb_sub_compatible_id]; omega),
      copyB_data_ge _ _ _ _ (by rw [winusb_compatible_id_length]; omega),
      setB_data_ne _ _ _ _ (by omega), setB_data_ne _ _ _ _ (by omega),
      setB_data_ne _ _ _ _ (by omega), setB_data_ne _ _ _ _ (by omega)]

theorem wfeat_fail_small (t : Buf) (h : t.len < 20) :
    write_winusb_features t = (t, .error .BufferOverflow) := by
  simp only [write_winusb_features]
  rw [wcid_fail_small _ _ _ h]

theorem wfeat_fail_mid (t : Buf) (h20 : 20 ≤ t.len) (h : t.len < 148) :
    (write_winusb_features t).2 = .error .BufferOverflow
    ∧ ∀ j, 20 ≤ j → ((write_winusb_features t).1).data j = t.data j := by
  simp only [write_winusb_features]
  have h1 : (write_compatible_id t winusb_compatible_id winusb_sub_compatible_id).2 = .ok 20 :=
    wcid_ok _ _ _ (by omega)
  simp only [h1]
  have h2 : write_registry_property
      (dropB (write_compatible_id t winusb_compatible_id winusb_sub_compatible_id).1 20)
      property_name_bytes RegPropertyType.String property_data_bytes
      = (dropB (write_compatible_id t winusb_compatible_id winusb_sub_compatible_id).1 20,
        .error .BufferOverflow) := by
    apply wreg_fail_small
    rw [dropB_len, wcid_len, property_name_bytes_length, property_data_bytes_length]
    omega
  simp only [h2]
  refine ⟨trivial, ?_⟩
  intro j hj
  rw [spliceB_data_ge _ _ _ _ (by omega), dropB_data,
    show 20 + (j - 20) = j by omega]
  exact wcid_data_ge _ _ (by omega)

/- ------------------------------------------------------------------ -/
/- Helper lemmas about the frame-decoding loop. -/

theorem dapInfoPayload_length_le (id : Nat) : (dapInfoPayload id).length ≤ 7 := by
  unfold dapInfoPayload
  split <;> decide

theorem pollLoop_nil (fuel : Nat) (buf : List Nat) (s r : Nat) :
    pollLoop (fuel + 1) [] buf s r = .done buf r := rfl

theorem pollLoop_break (fuel op : Nat) (req buf : List Nat) (s r : Nat) (h : op ≠ 0) :
    pollLoop (fuel + 1) (op :: req) buf s r = .done buf r := by
  simp [pollLoop, h]

theorem pollLoop_frame (fuel id : Nat) (req buf : List Nat) (s r : Nat)
    (h : r + 2 + (dapInfoPayload id).length ≤ buf.length - s) :
    pollLoop (fuel + 1) (0 :: id :: req) buf s r =
      pollLoop fuel req
        (writeAt buf (s + r) (0 :: (dapInfoPayload id).length :: dapInfoPayload id))
        (s + (2 + (dapInfoPayload id).length)) (r + (2 + (dapInfoPayload id).length)) := by
  simp [pollLoop, h]

theorem pollLoop_lone_zero_spins (fuel : Nat) (buf : List Nat) (s r : Nat) :
    pollLoop fuel [0] buf s r = .spin := by
  induction fuel with
  | zero => rfl
  | succ n ih => simpa [pollLoop] using ih

theorem writeAt_take_of_len (buf bs : List Nat) (n : Nat) (h : n = bs.length) :
    (writeAt buf 0 bs).take n = bs := by
  subst h
  simp [writeAt, List.take_left]

/-- A single well-formed `DAP_Info` frame, processed from the idle state
with a fresh dispatcher: the loop writes the reply frame at offset 0 and
the whole frame is transmitted. -/
theorem poll_single_frame (fuel id : Nat) :
    poll (fuel + 1 + 1) CmsisDapInterface.new false [[0, id]] false =
      .ret ⟨writeAt (List.replicate 64 0) 0
          (0 :: (dapInfoPayload id).length :: dapInfoPayload id), none⟩
        [] [0 :: (dapInfoPayload id).length :: dapInfoPayload id] true := by
  have hle := dapInfoPayload_length_le id
  have h1 := pollLoop_frame (fuel + 1) id [] (List.replicate 64 0) 0 0
    (by simp; omega)
  rw [pollLoop_nil] at h1
  simp only [Nat.zero_add] at h1
  have h2 := writeAt_take_of_len (List.replicate 64 0)
    (0 :: (dapInfoPayload id).length :: dapInfoPayload id)
    (2 + (dapInfoPayload id).length) (by simp; omega)
  simp only [poll, CmsisDapInterface.new, pollAfterFlush]
  rw [h1]
  simp only [h2]
  simp

/-- A well-formed `DAP_Info` frame followed by an unrecognized opcode:
the loop stops at the bad opcode and only the first frame's reply is
assembled and sent. -/
theorem poll_frame_then_break (fuel id b : Nat) (rest : List Nat) (hb : b ≠ 0) :
    poll (fuel + 1 + 1) CmsisDapInterface.new false [[0, id] ++ b :: rest] false =
      .ret ⟨writeAt (List.replicate 64 0) 0
          (0 :: (dapInfoPayload id).length :: dapInfoPayload id), none⟩
        [] [0 :: (dapInfoPayload id).length :: dapInfoPayload id] true := by
  have hle := dapInfoPayload_length_le id
  have h1 := pollLoop_frame (fuel + 1) id (b :: rest) (List.replicate 64 0) 0 0
    (by simp; omega)
  rw [pollLoop_break _ _ _ _ _ _ hb] at h1
  simp only [Nat.zero_add] at h1
  have h2 := writeAt_take_of_len (List.replicate 64 0)
    (0 :: (dapInfoPayload id).length :: dapInfoPayload id)
    (2 + (dapInfoPayload id).length) (by simp; omega)
  simp only [poll, CmsisDapInterface.new, pollAfterFlush, List.cons_append,
    List.nil_append]
  rw [h1]
  simp only [h2]
  simp

/- ------------------------------------------------------------------ -/
/- Claim theorems. -/

/-- C2: the dispatcher state is `Option Nat` (Idle = `none`,
ResponsePending n = `some n`). Entered in `ResponsePending n` with the IN
endpoint would-blocking, `poll` reads no OUT packet, sends nothing, and
leaves the state (buffer and pending length) exactly unchanged; iterating
any number of such polls changes nothing and consumes no OUT packet; when
the flush write succeeds the state returns to Idle (`none`). -/
theorem c2_response_pending_state_machine (dev : CmsisDapInterface) (n : Nat)
    (h : dev.pending_response_bytes = some n) :
    (∀ fuel q b2, poll fuel dev true q b2 = .ret dev q [] false)
    ∧ (∀ fuel k q, pollBusyIter fuel k dev q [] = (dev, q, []))
    ∧ (∀ fuel b2, poll fuel dev false [] b2 =
        .ret { dev with pending_response_bytes := none } []
          [dev.response_buffer.take n] false) := by
  have p1 : ∀ fuel q b2, poll fuel dev true q b2 = .ret dev q [] false := by
    intro fuel q b2
    simp [poll, h]
  refine ⟨p1, ?_, ?_⟩
  · intro fuel k
    induction k with
    | zero => intro q; rfl
    | succ m ih =>
      intro q
      simp only [pollBusyIter, p1]
      simpa using ih q
  · intro fuel b2
    simp [poll, h, pollAfterFlush]

/-- C2 witness: a concrete pending state under a busy IN endpoint is left
unchanged by one poll and by nine polls, and flushes to Idle on success. -/
theorem c2_witness :
    poll 5 ⟨List.replicate 64 0, some 3⟩ true [[1, 2]] true
      = PollRes.ret ⟨List.replicate 64 0, some 3⟩ [[1, 2]] [] false
    ∧ pollBusyIter 5 9 ⟨List.replicate 64 0, some 3⟩ [[1, 2]] []
      = (⟨List.replicate 64 0, some 3⟩, [[1, 2]], [])
    ∧ poll 5 ⟨List.replicate 64 0, some 3⟩ false [] true
      = PollRes.ret ⟨List.replicate 64 0, none⟩ [] [List.take 3 (List.replicate 64 0)] false := by
  obtain ⟨p1, p2, p3⟩ := c2_response_pending_state_machine ⟨List.replicate 64 0, some 3⟩ 3 rfl
  exact ⟨p1 5 [[1, 2]] true, p2 5 9 [[1, 2]], p3 5 true⟩

/-- C4: the claim is false on the code. For the packet
`[0x00, 0x04, 0x00, 0x09]` from a fresh Idle state, the response sent is
the first frame (`[0, 5] ++ "2.0.0"`) followed by seven zero bytes, not
two concatenated reply frames: the second frame is written at offset 14
(the cumulative response length indexes a slice that was already advanced
by the first frame's length) and lies beyond the 14 transmitted bytes. -/
theorem c4_second_frame_written_past_sent_prefix :
    (poll 64 CmsisDapInterface.new false [[0x00, 0x04, 0x00, 0x09]] false).sendsOf
      = [[0, 5, 50, 46, 48, 46, 48, 0, 0, 0, 0, 0, 0, 0]]
    ∧ (poll 64 CmsisDapInterface.new false [[0x00, 0x04, 0x00, 0x09]] false).sendsOf
      ≠ [[0, 5, 50, 46, 48, 46, 48] ++ [0, 5, 49, 46, 48, 46, 48]]
    ∧ ((poll 64 CmsisDapInterface.new false [[0x00, 0x04, 0x00, 0x09]] false).devOf.map
        (fun d => (d.response_buffer.drop 14).take 7)) = some [0, 5, 49, 46, 48, 46, 48] := by
  decide

/-- C7: the claim is false on the code at the overflow case. The
interception condition itself is exact (non-matching requests are left
untouched), but when composition overflows the supplied buffer the
`Err(BufferOverflow)` propagated by `accept` is hit by `.unwrap()` and
the firmware panics instead of merely failing the transfer. -/
theorem c7_overflow_panics_in_unwrap :
    control_in 0 ⟨RequestType.Vendor, 0x01, 0, 7⟩ ⟨fun _ => 0, 9⟩ = ControlInRes.crashed
    ∧ (compose_descriptor_set ⟨fun _ => 0, 9⟩ 0x06030000 0).2 = .error .BufferOverflow
    ∧ control_in 0 ⟨RequestType.Standard, 0x01, 0, 7⟩ ⟨fun _ => 0, 9⟩ = ControlInRes.ignored
    ∧ control_in 0 ⟨RequestType.Vendor, 0x02, 0, 7⟩ ⟨fun _ => 0, 9⟩ = ControlInRes.ignored
    ∧ control_in 0 ⟨RequestType.Vendor, 0x01, 1, 7⟩ ⟨fun _ => 0, 9⟩ = ControlInRes.ignored
    ∧ control_in 0 ⟨RequestType.Vendor, 0x01, 0, 6⟩ ⟨fun _ => 0, 9⟩ = ControlInRes.ignored :=
  ⟨rfl, rfl, rfl, rfl, rfl, rfl⟩

/-- C8: the claim is false on the code. For the single-byte packet
`[0x00]` (a truncated `DAP_Info` frame), the frame-decoding loop never
terminates: `request` is one byte long, the opcode `0x00` is recognized,
the `request.len() >= 2` guard fails, and nothing advances `request`, so
the loop state repeats forever (here: `poll` spins for every fuel bound). -/
theorem c8_truncated_frame_loops_forever (fuel : Nat) :
    poll fuel CmsisDapInterface.new false [[0]] false = PollRes.spin := by
  simp [poll, CmsisDapInterface.new, pollAfterFlush, pollLoop_lone_zero_spins]

/-- C9: the claim is false on the code. The legal 64-byte packet of 32
`[0x00, 0x02]` frames drives the response writes out of the 64-byte
response buffer (each frame needs 9 reply bytes, and the doubled
advancement of the write position makes the fifth frame's store land past
the buffer), so `poll` panics on an out-of-bounds slice index. -/
theorem c9_response_buffer_overrun_panics :
    poll 64 CmsisDapInterface.new false [(List.replicate 32 [0x00, 0x02]).flatten] false
      = PollRes.crash
    ∧ ((List.replicate 32 [0x00, 0x02]).flatten).length ≤ 64 := by
  decide

/-- C5: a recognized `DAP_Info` frame followed by a byte that is not a
recognized opcode (any nonzero byte, whatever follows it): decoding stops
at the unrecognized opcode, the assembled response holds exactly the
first frame's reply, and `poll` completes normally (`Ok(())`), still
sending that partial response. -/
theorem c5_unrecognized_opcode_stops_decoding (id b : Nat) (rest : List Nat)
    (hb : b ≠ 0) (_hlen : ([0, id] ++ b :: rest).length ≤ 64) :
    (poll 64 CmsisDapInterface.new false [[0, id] ++ b :: rest] false).sendsOf
      = [[0, (dapInfoPayload id).length] ++ dapInfoPayload id]
    ∧ (poll 64 CmsisDapInterface.new false [[0, id] ++ b :: rest] false).isOkOf = true := by
  have h := poll_frame_then_break 62 id b rest hb
  constructor
  · show (poll (62 + 1 + 1) CmsisDapInterface.new false [[0, id] ++ b :: rest] false).sendsOf
      = [[0, (dapInfoPayload id).length] ++ dapInfoPayload id]
    rw [h]
    rfl
  · show (poll (62 + 1 + 1) CmsisDapInterface.new false [[0, id] ++ b :: rest] false).isOkOf
      = true
    rw [h]
    rfl

/-- C5 witness: `[0x00, 0x01, 0x05]` answers only the vendor-name frame. -/
theorem c5_witness :
    (poll 64 CmsisDapInterface.new false [[0, 1, 5]] false).sendsOf
      = [[0, 6, 118, 101, 110, 100, 111, 114]]
    ∧ (poll 64 CmsisDapInterface.new false [[0, 1, 5]] false).isOkOf = true := by
  have h := c5_unrecognized_opcode_stops_decoding 1 5 [] (by decide) (by decide)
  exact ⟨h.1, h.2⟩

/-- C6: for every sub-ID, the reply frame to a single `DAP_Info` frame is
`{status = 0, length = payload length, payload}`; the canned table maps
0x01/0x02/0x03/0x04/0x09 to the vendor, product, serial, CMSIS-DAP
version and firmware version strings, 0xf0 to the SWD-only capability
bitmap `[0x01, 0x00]`, 0xfe to `[0x01]`, 0xff to `[64, 0]`, and every
other sub-ID to the empty payload (so its frame is `{0, 0}`). -/
theorem c6_dap_info_reply_table :
    (∀ id, (poll 64 CmsisDapInterface.new false [[0, id]] false).sendsOf
        = [[0, (dapInfoPayload id).length] ++ dapInfoPayload id]
      ∧ (poll 64 CmsisDapInterface.new false [[0, id]] false).isOkOf = true)
    ∧ dapInfoPayload 0x01 = asciiBytes "vendor"
    ∧ dapInfoPayload 0x02 = asciiBytes "product"
    ∧ dapInfoPayload 0x03 = asciiBytes "serial"
    ∧ dapInfoPayload 0x04 = asciiBytes "2.0.0"
    ∧ dapInfoPayload 0x09 = asciiBytes "1.0.0"
    ∧ dapInfoPayload 0xf0 = [0x01, 0x00]
    ∧ dapInfoPayload 0xfe = [0x01]
    ∧ dapInfoPayload 0xff = [64, 0]
    ∧ ∀ id, id ∉ ([0x01, 0x02, 0x03, 0x04, 0x09, 0xf0, 0xfe, 0xff] : List Nat) →
        dapInfoPayload id = [] := by
  refine ⟨?_, rfl, rfl, rfl, rfl, rfl, rfl, rfl, rfl, ?_⟩
  · intro id
    have h := poll_single_frame 62 id
    constructor
    · show (poll (62 + 1 + 1) CmsisDapInterface.new false [[0, id]] false).sendsOf
        = [[0, (dapInfoPayload id).length] ++ dapInfoPayload id]
      rw [h]
      rfl
    · show (poll (62 + 1 + 1) CmsisDapInterface.new false [[0, id]] false).isOkOf = true
      rw [h]
      rfl
  · intro id hid
    unfold dapInfoPayload
    split <;> simp_all

/-- C6 witness: sub-ID 0x04 answers the protocol-version frame, and the
undefined sub-ID 0x07 has an empty payload. -/
theorem c6_witness :
    (poll 64 CmsisDapInterface.new false [[0, 4]] false).sendsOf
      = [[0, 5, 50, 46, 48, 46, 48]]
    ∧ dapInfoPayload 7 = [] := by
  obtain ⟨hall, -, -, -, -, -, -, -, -, hdef⟩ := c6_dap_info_reply_table
  exact ⟨(hall 4).1, hdef 7 (by decide)⟩

/-- C1: for every first interface number, composing the MS OS 2.0
descriptor set as `control_in` does (Windows version 0x06030000,
configuration subset, function subset, WINUSB compatible ID,
DeviceInterfaceGUID registry property) into any buffer of at least 174
bytes succeeds deterministically (it is a pure function of the interface
number and buffer) with total length exactly 174, the length transmitted
is 174 bytes, and 174 equals the `wLength` advertised in the BOS platform
capability written by `get_bos_descriptors`. -/
theorem c1_descriptor_set_is_174_bytes (i : Nat) (buf : Buf) (h : 174 ≤ buf.len) :
    (compose_descriptor_set buf 0x06030000 i).2 = .ok 174
    ∧ (bufTake (compose_descriptor_set buf 0x06030000 i).1 174).length = 174
    ∧ bos_ms_os_20_wLength = 174
    ∧ control_in i ⟨RequestType.Vendor, 0x01, 0, 7⟩ buf
        = .accepted (bufTake (compose_descriptor_set buf 0x06030000 i).1 174) := by
  have hok : (compose_descriptor_set buf 0x06030000 i).2 = .ok 174 := by
    unfold compose_descriptor_set
    refine wds_ok _ _ _ 164 (by omega) ?_
    intro t ht
    unfold configuration_subset_fn
    refine wconf_ok _ _ 156 (by omega) ?_
    intro t2 ht2
    unfold function_subset_fn
    refine wfunc_ok _ _ _ 148 (by omega) ?_
    intro t3 ht3
    exact wfeat_ok _ (by omega)
  refine ⟨hok, by simp [bufTake], by decide, ?_⟩
  unfold control_in
  rw [if_pos ⟨rfl, rfl, rfl, rfl⟩]
  simp only [hok]

/-- C1 witness: interface number 0, zeroed 174-byte buffer. -/
theorem c1_witness :
    (compose_descriptor_set ⟨fun _ => 0, 174⟩ 0x06030000 0).2 = .ok 174
    ∧ bos_ms_os_20_wLength = 174 := by
  have h := c1_descriptor_set_is_174_bytes 0 ⟨fun _ => 0, 174⟩ (by decide)
  exact ⟨h.1, h.2.2.1⟩

/-- C10: for every 32-bit `windows_version` value `v` and any callback,
`write_descriptor_set` stores the exact little-endian bytes of `v` at
offsets 4..8 — the 0xfffff mask in `u32_lo` is harmless because the
subsequent u16 truncation restores `v`'s low 16 bits
(`u32_lo v = v % 65536`). -/
theorem c10_windows_version_little_endian (v : Nat) (hv : v < 4294967296)
    (b : Buf) (h : 10 ≤ b.len) (f : Buf → Buf × Except UsbError Nat) :
    u32_lo v = v % 65536
    ∧ ((write_descriptor_set b v f).1).data 4 = v % 256
    ∧ ((write_descriptor_set b v f).1).data 5 = v / 256 % 256
    ∧ ((write_descriptor_set b v f).1).data 6 = v / 65536 % 256
    ∧ ((write_descriptor_set b v f).1).data 7 = v / 16777216 % 256 := by
  have hd : ∀ k, 4 ≤ k → k ≤ 7 → ((write_descriptor_set b v f).1).data k
      = (ds_set_header b v).data k := by
    intro k h4 h7
    simp only [write_descriptor_set]
    rw [if_neg (by omega)]
    split
    · exact spliceB_data_lt _ _ _ _ (by omega)
    · rw [setB_data_ne _ _ _ _ (by omega), setB_data_ne _ _ _ _ (by omega)]
      exact spliceB_data_lt _ _ _ _ (by omega)
  refine ⟨by unfold u32_lo; omega, ?_, ?_, ?_, ?_⟩
  · rw [hd 4 (by omega) (by omega)]
    unfold ds_set_header
    rw [setB_data_ne _ _ _ _ (by omega), setB_data_ne _ _ _ _ (by omega),
      setB_data_ne _ _ _ _ (by omega), setB_data_eq]
    unfold u16_lo u32_lo
    omega
  · rw [hd 5 (by omega) (by omega)]
    unfold ds_set_header
    rw [setB_data_ne _ _ _ _ (by omega), setB_data_ne _ _ _ _ (by omega), setB_data_eq]
    unfold u16_hi u32_lo
    omega
  · rw [hd 6 (by omega) (by omega)]
    unfold ds_set_header
    rw [setB_data_ne _ _ _ _ (by omega), setB_data_eq]
    unfold u16_lo u32_hi
    omega
  · rw [hd 7 (by omega) (by omega)]
    unfold ds_set_header
    rw [setB_data_eq]
    unfold u16_hi u32_hi
    omega

/-- C10 witness: `v = 0x12345678` in a 10-byte buffer with a trivial
callback gives bytes 0x78, 0x56, 0x34, 0x12 at offsets 4..8, and
`u32_lo 0x12345678 = 0x5678`. -/
theorem c10_witness :
    u32_lo 305419896 = 22136
    ∧ ((write_descriptor_set ⟨fun _ => 0, 10⟩ 305419896
        (fun t => (t, Except.ok 0))).1).data 4 = 120
    ∧ ((write_descriptor_set ⟨fun _ => 0, 10⟩ 305419896
        (fun t => (t, Except.ok 0))).1).data 5 = 86
    ∧ ((write_descriptor_set ⟨fun _ => 0, 10⟩ 305419896
        (fun t => (t, Except.ok 0))).1).data 6 = 52
    ∧ ((write_descriptor_set ⟨fun _ => 0, 10⟩ 305419896
        (fun t => (t, Except.ok 0))).1).data 7 = 18 := by
  have h := c10_windows_version_little_endian 305419896 (by norm_num)
    ⟨fun _ => 0, 10⟩ (by decide) (fun t => (t, Except.ok 0))
  obtain ⟨h0, h4, h5, h6, h7⟩ := h
  norm_num at h0 h4 h5 h6 h7
  exact ⟨h0, h4, h5, h6, h7⟩

/-- The offset of the record whose length check fails when the
composition of the descriptor set is attempted into a buffer of `n < 174`
bytes: the set header needs 10 bytes at offset 0, the configuration
subset 8 at offset 10, the function subset 8 at offset 18, the
compatible-ID feature 20 at offset 26, and the registry property 128 at
offset 46. -/
def fail_offset (n : Nat) : Nat :=
  if n < 10 then 0 else if n < 18 then 10 else if n < 26 then 18
  else if n < 46 then 26 else 46

/-- C3: for every destination buffer shorter than the 174 bytes the
descriptor set needs, composition returns `BufferOverflow` at the
outermost caller, and the writer whose length check fails writes nothing
into its region: every byte from the failing record's offset on is
unchanged. Likewise each individual record writer returns its buffer
completely untouched together with the overflow error whenever the buffer
is shorter than that record's fixed or computed length. -/
theorem c3_overflow_error_aborts_composition (i v : Nat) (buf : Buf)
    (h : buf.len < 174) :
    (compose_descriptor_set buf v i).2 = .error .BufferOverflow
    ∧ (∀ k, fail_offset buf.len ≤ k →
        ((compose_descriptor_set buf v i).1).data k = buf.data k)
    ∧ (∀ b : Buf, ∀ w f, b.len < 10 →
        write_descriptor_set b w f = (b, .error .BufferOverflow))
    ∧ (∀ b : Buf, ∀ f, b.len < 8 →
        write_configuration_subset b f = (b, .error .BufferOverflow))
    ∧ (∀ b : Buf, ∀ j f, b.len < 8 →
        write_function_subset b j f = (b, .error .BufferOverflow))
    ∧ (∀ b : Buf, ∀ cid scid, b.len < 20 →
        write_compatible_id b cid scid = (b, .error .BufferOverflow))
    ∧ (∀ b : Buf, ∀ nm tp dt, b.len < nm.length + dt.length + 10 →
        write_registry_property b nm tp dt = (b, .error .BufferOverflow)) := by
  have main : (compose_descriptor_set buf v i).2 = .error .BufferOverflow
      ∧ ∀ k, fail_offset buf.len ≤ k →
        ((compose_descriptor_set buf v i).1).data k = buf.data k := by
    unfold compose_descriptor_set
    by_cases h10 : buf.len < 10
    · rw [wds_fail_small _ _ _ h10]
      exact ⟨rfl, fun k hk => rfl⟩
    · by_cases h18 : buf.len < 18
      · have hmain := wds_fail buf v (configuration_subset_fn i) .BufferOverflow 0
          (by omega) (fun t ht => by
            unfold configuration_subset_fn
            rw [wconf_fail_small t _ (by omega)]
            exact ⟨rfl, fun j hj => rfl⟩)
        have hfo : fail_offset buf.len = 10 := by
          unfold fail_offset
          rw [if_neg h10, if_pos h18]
        refine ⟨hmain.1, ?_⟩
        intro k hk
        rw [hfo] at hk
        exact hmain.2 k (by omega)
      · by_cases h26 : buf.len < 26
        · have hmain := wds_fail buf v (configuration_subset_fn i) .BufferOverflow 8
            (by omega) (fun t ht => by
              unfold configuration_subset_fn
              exact wconf_fail t (function_subset_fn i) .BufferOverflow 0 (by omega)
                (fun u hu => by
                  unfold function_subset_fn
                  rw [wfunc_fail_small u i _ (by omega)]
                  exact ⟨rfl, fun j hj => rfl⟩))
          have hfo : fail_offset buf.len = 18 := by
            unfold fail_offset
            rw [if_neg h10, if_neg h18, if_pos h26]
          refine ⟨hmain.1, ?_⟩
          intro k hk
          rw [hfo] at hk
          exact hmain.2 k (by omega)
        · by_cases h46 : buf.len < 46
          · have hmain := wds_fail buf v (configuration_subset_fn i) .BufferOverflow 16
              (by omega) (fun t ht => by
                unfold configuration_subset_fn
                exact wconf_fail t (function_subset_fn i) .BufferOverflow 8 (by omega)
                  (fun u hu => by
                    unfold function_subset_fn
                    exact wfunc_fail u i write_winusb_features .BufferOverflow 0 (by omega)
                      (fun w hw => by
                        rw [wfeat_fail_small w (by omega)]
                        exact ⟨rfl, fun j hj => rfl⟩)))
            have hfo : fail_offset buf.len = 26 := by
              unfold fail_offset
              rw [if_neg h10, if_neg h18, if_neg h26, if_pos h46]
            refine ⟨hmain.1, ?_⟩
            intro k hk
            rw [hfo] at hk
            exact hmain.2 k (by omega)
          · have hmain := wds_fail buf v (configuration_subset_fn i) .BufferOverflow 36
              (by omega) (fun t ht => by
                unfold configuration_subset_fn
                exact wconf_fail t (function_subset_fn i) .BufferOverflow 28 (by omega)
                  (fun u hu => by
                    unfold function_subset_fn
                    exact wfunc_fail u i write_winusb_features .BufferOverflow 20 (by omega)
                      (fun w hw => wfeat_fail_mid w (by omega) (by omega))))
            have hfo : fail_offset buf.len = 46 := by
              unfold fail_offset
              rw [if_neg h10, if_neg h18, if_neg h26, if_neg h46]
            refine ⟨hmain.1, ?_⟩
            intro k hk
            rw [hfo] at hk
            exact hmain.2 k (by omega)
  exact ⟨main.1, main.2,
    fun b w f hb => wds_fail_small b w f hb,
    fun b f hb => wconf_fail_small b f hb,
    fun b j f hb => wfunc_fail_small b j f hb,
    fun b cid scid hb => wcid_fail_small b cid scid hb,
    fun b nm tp dt hb => wreg_fail_small b nm tp dt hb⟩

/-- C3 witness: a 45-byte buffer fails (at the compatible-ID record,
offset 26) with `BufferOverflow`, leaving e.g. byte 30 untouched, and a
5-byte buffer makes `write_registry_property` fail without touching the
buffer at all. -/
theorem c3_witness :
    (compose_descriptor_set ⟨fun _ => 0, 45⟩ 0x06030000 0).2
      = .error .BufferOverflow
    ∧ ((compose_descriptor_set ⟨fun _ => 0, 45⟩ 0x06030000 0).1).data 30 = 0
    ∧ write_registry_property ⟨fun _ => 0, 5⟩ [1] RegPropertyType.String [2]
      = (⟨fun _ => 0, 5⟩, .error .BufferOverflow) := by
  have h := c3_overflow_error_aborts_composition 0 0x06030000 ⟨fun _ => 0, 45⟩ (by decide)
  exact ⟨h.1, h.2.1 30 (by decide),
    h.2.2.2.2.2.2 ⟨fun _ => 0, 5⟩ [1] RegPropertyType.String [2] (by decide)⟩
